import Mathlib

/-!
Verification of the exif-watermark repository (two scripts:
exif-watermark-embed.py, the overlay variant with CLI flags, and
exif-watermark.py, the footer-template variant).

The embedding models Python values that flow through the scripts as an
inductive type PyVal, metadata dictionaries as association lists, and the
fallible Python operations (dictionary lookup, attribute access, int and
float conversions) as Except computations.  CPython float arithmetic
(binary64) and its fixed-point formatting are modelled exactly over
unnormalised integer fractions, kept away from the Rat kernel operations so
that concrete runs reduce inside the Lean kernel.  Image geometry is
modelled over the rationals; a Python float is a rational number, and the
only places where binary64 rounding of geometry could differ from exact
rational arithmetic are absorbed by the one-pixel tolerances of the
statements proved about it.
-/

/-! ### Unnormalised fractions and the binary64 model -/

/-- An unnormalised fraction: numerator and denominator, denominator kept
positive by all constructors below.  Used to model CPython float (binary64)
computations executably. -/
abbrev Q2 := Int × Int

/-- Build a fraction from a Python integer division m / n (n not 0),
normalising the sign into the numerator. -/
def q2ofInts (m n : Int) : Q2 := if n < 0 then (-m, -n) else (m, n)

/-- Absolute value of a fraction. -/
def q2abs (x : Q2) : Q2 := (if x.1 < 0 then -x.1 else x.1, x.2)

/-- Product of fractions. -/
def q2mul (x y : Q2) : Q2 := (x.1 * y.1, x.2 * y.2)

/-- Sum of fractions. -/
def q2add (x y : Q2) : Q2 := (x.1 * y.2 + y.1 * x.2, x.2 * y.2)

/-- Value equality of fractions (cross multiplication). -/
def q2eq (x y : Q2) : Bool := decide (x.1 * y.2 = y.1 * x.2)

/-- Floor of a fraction (denominator positive, so Int euclidean division
is the floor). -/
def q2floor (x : Q2) : Int := x.1 / x.2

/-- Round a fraction to the nearest integer, ties to even (the IEEE 754
rounding used by binary64 operations). -/
def rhe2 (x : Q2) : Int :=
  let f := q2floor x
  let num2 := 2 * (x.1 - f * x.2)
  if num2 < x.2 then f
  else if x.2 < num2 then f + 1
  else if f % 2 = 0 then f else f + 1

/-- Fuel-driven base-2 logarithm on Nat (structural, so it reduces in the
kernel, unlike the well-founded Nat.log). -/
def log2fuel : Nat → Nat → Nat
  | 0, _ => 0
  | fuel+1, n => if 2 ≤ n then log2fuel fuel (n / 2) + 1 else 0

/-- Fuel-driven base-2 ceiling logarithm on Nat. -/
def clog2fuel : Nat → Nat → Nat
  | 0, _ => 0
  | fuel+1, n => if n ≤ 1 then 0 else clog2fuel fuel ((n + 1) / 2) + 1

/-- Floor of the base-2 logarithm of a positive fraction. -/
def q2log2 (x : Q2) : Int :=
  if x.2 ≤ x.1 then ((log2fuel 4400 (x.1 / x.2).toNat : Nat) : Int)
  else -(((clog2fuel 4400 ((x.2 + x.1 - 1) / x.1).toNat : Nat)) : Int)

/-- The fraction 2 ^ k for an integer k. -/
def q2pow2 (k : Int) : Q2 :=
  if 0 ≤ k then ((2 : Int) ^ k.toNat, 1) else (1, (2 : Int) ^ (-k).toNat)

/-- Nearest binary64 value of a fraction (exactly, as a fraction): round the
significand to 53 bits, ties to even.  Overflow and subnormal ranges are
outside the magnitudes reachable from EXIF rationals and are not modelled. -/
def f64q2 (x : Q2) : Q2 :=
  if x.1 = 0 then (0, 1)
  else
    let s : Int := if x.1 < 0 then -1 else 1
    let a := q2abs x
    let k : Int := 52 - q2log2 a
    let sig := rhe2 (q2mul a (q2pow2 k))
    q2mul (s * sig, 1) (q2pow2 (-k))

/-- CPython fixed-point formatting of the float quotient m / n with one
fractional digit, as in the f-string {m / n:.1f} of the scripts: the sign is
printed separately, and the magnitude of the binary64 quotient is rounded to
the nearest tenth with ties to even, as CPython formats the exact binary64
value (a tie happens exactly when that value is a quarter, e.g. 25/100
formats as 0.2 and 75/100 as 0.8). -/
def fmt1f (m n : Int) : String :=
  let d := f64q2 (q2ofInts m n)
  let u := rhe2 (q2mul (q2abs d) (10, 1))
  (if d.1 < 0 then "-" else "") ++ toString (u / 10) ++ "." ++ toString (u % 10)

/-- Fuel-driven base-10 logarithm on Nat. -/
def log10fuel : Nat → Nat → Nat
  | 0, _ => 0
  | fuel+1, n => if 10 ≤ n then log10fuel fuel (n / 10) + 1 else 0

/-- Fuel-driven base-10 ceiling logarithm on Nat. -/
def clog10fuel : Nat → Nat → Nat
  | 0, _ => 0
  | fuel+1, n => if n ≤ 1 then 0 else clog10fuel fuel ((n + 9) / 10) + 1

/-- Floor of the base-10 logarithm of a positive fraction. -/
def q2log10 (x : Q2) : Int :=
  if x.2 ≤ x.1 then ((log10fuel 1400 (x.1 / x.2).toNat : Nat) : Int)
  else -(((clog10fuel 1400 ((x.2 + x.1 - 1) / x.1).toNat : Nat)) : Int)

/-- The fraction 10 ^ k for an integer k. -/
def q2pow10 (k : Int) : Q2 :=
  if 0 ≤ k then ((10 : Int) ^ k.toNat, 1) else (1, (10 : Int) ^ (-k).toNat)

/-- Round a positive fraction to p significant decimal digits: returns the
digit block n and the scale s, the candidate value being n / 10 ^ s. -/
def sigRound10 (a : Q2) (p : Nat) : Int × Int :=
  let e := q2log10 a
  let s : Int := (p : Int) - 1 - e
  (rhe2 (q2mul a (q2pow10 s)), s)

/-- Search for the shortest decimal digit block that reads back (by nearest
binary64 conversion) to the exact binary64 value d; this is the digit
selection CPython repr performs for floats. -/
def shortestFrom (d : Q2) (p : Nat) : Nat → Int × Int
  | 0 => sigRound10 d 17
  | fuel+1 =>
    let c := sigRound10 d p
    let v : Q2 := q2mul (c.1, 1) (q2pow10 (-c.2))
    if q2eq (f64q2 v) d then c else shortestFrom d (p + 1) fuel

/-- Drop trailing zero digits of a digit block while the scale stays
positive. -/
def stripZerosAux : Nat → Int × Int → Int × Int
  | 0, c => c
  | fuel+1, (n, s) =>
    if 0 < s then
      if n % 10 = 0 then stripZerosAux fuel (n / 10, s - 1) else (n, s)
    else (n, s)

/-- Left-pad a digit string with zeros up to the given length. -/
def padZeros (s : String) (len : Nat) : String :=
  String.mk (List.replicate (len - s.length) '0') ++ s

/-- Positional rendering of the value n / 10 ^ s (n positive), always with at
least one fractional digit, as CPython float repr does. -/
def posStr (n : Int) (s : Int) : String :=
  if s ≤ 0 then toString (n * (10 : Int) ^ (-s).toNat) ++ ".0"
  else
    let m := (10 : Int) ^ s.toNat
    toString (n / m) ++ "." ++ padZeros (toString (n % m)) s.toNat

/-- Scientific rendering of the value n / 10 ^ s, as CPython float repr does
for exponents outside [-4, 15]. -/
def sciStr (n : Int) (s : Int) : String :=
  let ds := toString n
  let e : Int := (ds.length : Int) - 1 - s
  let mant :=
    match ds.data with
    | [] => "0"
    | c :: rest =>
      if rest.isEmpty then String.mk [c] else String.mk [c] ++ "." ++ String.mk rest
  let ea := if e < 0 then -e else e
  let es := toString ea
  mant ++ "e" ++ (if e < 0 then "-" else "+") ++ (if ea < 10 then "0" ++ es else es)

/-- CPython str(m / n) for integers with n not 0: the shortest decimal string
that round-trips to the binary64 quotient, rendered positionally or
scientifically as repr chooses.  Reached by the scripts when an FNumber tag
is present as an old-style tuple with nonzero denominator. -/
def pyFloatStr (m n : Int) : String :=
  let d := f64q2 (q2ofInts m n)
  if d.1 = 0 then "0.0"
  else
    let ad := q2abs d
    let c0 := shortestFrom ad 1 17
    let c := stripZerosAux 25 c0
    let e := q2log10 ad
    (if d.1 < 0 then "-" else "") ++
      (if 16 ≤ e ∨ e ≤ -5 then sciStr c.1 c.2 else posStr c.1 c.2)

/-! ### Python values and primitive operations -/

/-- The Python exceptions that the modelled operations can raise. -/
inductive PyErr where
  | keyError (k : String)
  | attributeError
  | zeroDivisionError
  | valueError
  | typeError

/-- The Python values that flow through the scripts: strings, integers,
PIL IFDRational tag values (numerator, denominator), and plain int pairs
(the (0, 0) defaults written as tuples in both scripts). -/
inductive PyVal where
  | pstr (s : String)
  | pint (n : Int)
  | prat (num den : Int)
  | ptup (a b : Int)

/-- Python truthiness of the modelled values.  A rational is falsy exactly
when its value is zero; an IFDRational with denominator 0 holds nan or inf,
both truthy.  A pair (tuple) is nonempty, hence truthy. -/
def pyTruthy : PyVal → Bool
  | .pstr s => !s.isEmpty
  | .pint n => decide (n ≠ 0)
  | .prat a b => if b = 0 then true else decide (a ≠ 0)
  | .ptup _ _ => true

/-- Reading the numerator and denominator attributes, as lines 71-72 of the
embed script do.  Python ints carry numerator n and denominator 1; strings
and tuples have no such attributes and raise AttributeError. -/
def pyNumerDenom : PyVal → Except PyErr (Int × Int)
  | .pstr _ => .error .attributeError
  | .pint n => .ok (n, 1)
  | .prat a b => .ok (a, b)
  | .ptup _ _ => .error .attributeError

/-- Fraction-style rendering of a rational value (reduced, sign on the
numerator), used only when a rational tag value reaches an f-string. -/
def ratStr (a b : Int) : String :=
  if b = 0 then "nan"
  else
    let g : Int := (Int.gcd a b : Nat)
    let sgn : Int := if b < 0 then -1 else 1
    let a2 := sgn * a / g
    let b2 := sgn * b / g
    if b2 = 1 then toString a2 else toString a2 ++ "/" ++ toString b2

/-- How an f-string renders each modelled value. -/
def pyFormat : PyVal → String
  | .pstr s => s
  | .pint n => toString n
  | .prat a b => ratStr a b
  | .ptup a b => "(" ++ toString a ++ ", " ++ toString b ++ ")"

/-- Digits-only parse of a character list. -/
def digitsVal (cs : List Char) : Option Nat :=
  if cs.isEmpty || !cs.all Char.isDigit then none
  else some (cs.foldl (fun a c => a * 10 + (c.toNat - 48)) 0)

/-- Python int(s) on a string: optional sign followed by digits, otherwise
ValueError (as for the default placeholder string). -/
def pyStrToInt (s : String) : Except PyErr Int :=
  match s.data with
  | '-' :: rest =>
    match digitsVal rest with
    | some v => .ok (-(v : Int))
    | none => .error .valueError
  | '+' :: rest =>
    match digitsVal rest with
    | some v => .ok (v : Int)
    | none => .error .valueError
  | l =>
    match digitsVal l with
    | some v => .ok (v : Int)
    | none => .error .valueError

/-- Python int(v): identity on ints, truncation toward zero on rationals
(ValueError on a nan-valued rational), string parse on strings, TypeError on
tuples.  Used for int(metadata of Focal Length). -/
def pyToInt : PyVal → Except PyErr Int
  | .pint n => .ok n
  | .prat a b => if b = 0 then .error .valueError else .ok (Int.tdiv a b)
  | .pstr s => pyStrToInt s
  | .ptup _ _ => .error .typeError

/-- Python s.lower() on the modelled values: defined on strings (rendered as
a character list so everything reduces structurally), AttributeError
otherwise. -/
def pyLower : PyVal → Except PyErr (List Char)
  | .pstr s => .ok (s.data.map Char.toLower)
  | _ => .error .attributeError

/-- Substring test on character lists, modelling the Python in operator on
strings. -/
def containsSub (pat : List Char) : List Char → Bool
  | [] => pat.isEmpty
  | c :: rest => pat.isPrefixOf (c :: rest) || containsSub pat rest

/-! ### Metadata extraction (get_image_metadata, both scripts) -/

/-- A decoded metadata dictionary: tag name to value. -/
abbrev RawMeta := List (String × PyVal)

/-- Python dictionary subscript: KeyError when the key is absent. -/
def dictGet (meta : RawMeta) (k : String) : Except PyErr PyVal :=
  match List.lookup k meta with
  | some v => .ok v
  | none => .error (.keyError k)

/-- Dictionary get with default, as exif.get(tag, default). -/
def getTag (exif : RawMeta) (k : String) (dflt : PyVal) : PyVal :=
  (List.lookup k exif).getD dflt

/-- The F-Value conversion of get_image_metadata: when the FNumber entry is a
tuple, replace it by str(first / second) - a true division that raises
ZeroDivisionError on the (0, 0) default used when the tag is absent. -/
def fvalue_step : PyVal → Except PyErr PyVal
  | .ptup a b =>
    if b = 0 then .error .zeroDivisionError else .ok (.pstr (pyFloatStr a b))
  | v => .ok v

/-- get_image_metadata of both scripts: with no EXIF block, return the empty
dictionary; otherwise project the eight caption fields with their defaults
and apply the F-Value conversion (which can raise). -/
def get_image_metadata (exifTags : Option RawMeta) : Except PyErr RawMeta :=
  match exifTags with
  | none => .ok []
  | some exif =>
    match fvalue_step (getTag exif "FNumber" (.ptup 0 0)) with
    | .error e => .error e
    | .ok fv =>
      .ok [("ISO", getTag exif "ISOSpeedRatings" (.pstr "??")),
           ("F-Value", fv),
           ("ExposureTime", getTag exif "ExposureTime" (.ptup 0 0)),
           ("Date Taken", getTag exif "DateTimeOriginal" (.pstr "Unknown")),
           ("Device Model", getTag exif "Model" (.pstr "Unknown")),
           ("Device Make", getTag exif "Make" (.pstr "Unknown")),
           ("Lens Model", getTag exif "LensModel" (.pstr "Unknown")),
           ("Focal Length", getTag exif "FocalLength" (.pstr "??"))]

/-! ### Exposure formatting and the caption (both scripts) -/

/-- Lines 70-81 of the embed script (68-80 of the footer script): a falsy
exposure value is replaced by the pair (0, 0); then denominator 0 formats as
Unknown, numerator 1 as the fraction, and anything else as the float
quotient with one fractional digit. -/
def format_exposure (v : PyVal) : Except PyErr String :=
  match (match pyTruthy v with
         | true => pyNumerDenom v
         | false => Except.ok (0, 0)) with
  | .error e => .error e
  | .ok nd =>
    if nd.2 = 0 then .ok "Unknown"
    else if nd.1 = 1 then .ok (toString nd.1 ++ "/" ++ toString nd.2)
    else .ok (fmt1f nd.1 nd.2)

/-- The caption text of lines 84-85 (85-86 in the footer script), together
with the dictionary accesses and the int conversion feeding it; any of these
can raise, in the evaluation order of the source. -/
def caption_of_metadata (meta : RawMeta) : Except PyErr String :=
  match dictGet meta "ExposureTime" with
  | .error e => .error e
  | .ok et =>
    match format_exposure et with
    | .error e => .error e
    | .ok exposure =>
      match dictGet meta "Device Model" with
      | .error e => .error e
      | .ok dm =>
        match dictGet meta "Lens Model" with
        | .error e => .error e
        | .ok lm =>
          match dictGet meta "Focal Length" with
          | .error e => .error e
          | .ok fl =>
            match pyToInt fl with
            | .error e => .error e
            | .ok flInt =>
              match dictGet meta "ISO" with
              | .error e => .error e
              | .ok iso =>
                match dictGet meta "F-Value" with
                | .error e => .error e
                | .ok fv =>
                  .ok (pyFormat dm ++ " + " ++ pyFormat lm ++ "  |  " ++
                       toString flInt ++ "mm, iso" ++ pyFormat iso ++
                       ", f/" ++ pyFormat fv ++ ", " ++ exposure ++ "s")

/-- A projected metadata dictionary holding the given caption fields, in the
shape get_image_metadata produces. -/
def mkFields (dm lm mk2 : String) (fl iso fv et : PyVal) : RawMeta :=
  [("ISO", iso), ("F-Value", fv), ("ExposureTime", et),
   ("Date Taken", .pstr "2024:01:01 00:00:00"), ("Device Model", .pstr dm),
   ("Device Make", .pstr mk2), ("Lens Model", .pstr lm),
   ("Focal Length", fl)]

/-! ### Geometry and compositing -/

/-- Floor of a rational, computed on its components so that it reduces in
the kernel. -/
def qfloor (q : ℚ) : Int := q.num / (q.den : Int)

/-- Python int() on a real value: truncation toward zero. -/
def pyInt (q : ℚ) : Int := if 0 ≤ q then qfloor q else -qfloor (-q)

/-- Lines 48-49 of the embed script: the scaled signature size.  Width is
int(max(W, H) * r); height is int(sigH * width / sigW), a truncated true
division. -/
def sig_scaled (W H sw sh : Nat) (r : ℚ) : Int × Int :=
  let w := pyInt (((max W H : ℕ) : ℚ) * r)
  let h := pyInt ((sh : ℚ) * (w : ℚ) / (sw : ℚ))
  (w, h)

/-- Modelled from the spec: the external blend_modes.addition composite used
at line 102 of the embed script.  The spec states the per-channel result is
min(255, bg + fg * opacity), clamped to the 8-bit range. -/
def blend_addition (bg fg opacity : ℚ) : ℚ :=
  min 255 (max 0 (bg + fg * opacity))

/-- Lines 49-56 of the footer script: template choice by case-insensitive
substring match on the (already lowered) device make; no match means the
file is skipped. -/
def select_template (dlow : List Char) : Option String :=
  if containsSub "hasselblad".data dlow then some "watermark-hasselblad.png"
  else if containsSub "sony".data dlow then some "watermark-sony.png"
  else none

/-- An input image as the scripts observe it: file name, pixel size, the
decoded EXIF tag dictionary (none when the file has no EXIF block), and the
raw EXIF byte block from original.info. -/
structure InputImage where
  name : List Char
  width : Nat
  height : Nat
  exifTags : Option RawMeta
  exifBytes : Option (List Nat)

/-- The observable result of a successful save in the embed script: output
path, JPEG quality, attached EXIF bytes, signature placement rectangle
(x, y, w, h) and the caption drawn (none when suppressed). -/
structure SavedA where
  path : List Char
  quality : Nat
  exif : Option (List Nat)
  sigRect : Int × Int × Int × Int
  caption : Option String

/-- The observable result of a successful save in the footer script. -/
structure SavedB where
  path : List Char
  quality : Nat
  exif : Option (List Nat)
  template : String
  caption : String

/-- create_watermarked_image of the embed script (lines 43-109): signature
geometry, then, unless suppressed, the caption computation whose exceptions
the enclosing try swallows (returning no output).  On success the image is
saved at the given path with quality 95 and the original EXIF bytes. -/
def create_watermarked_image_A (outPath : List Char) (W H sw sh : Nat)
    (noExif : Bool) (r : ℚ) (center : Bool) (exifBytes : Option (List Nat))
    (meta : RawMeta) : Option SavedA :=
  let wh := sig_scaled W H sw sh r
  let padding := pyInt ((W : ℚ) * (1 / 100))
  let sigX := if center then pyInt ((W : ℚ) / 2 - ((wh.1 : Int) : ℚ) / 2) else padding
  let sigY := (H : Int) - wh.2 - padding
  match (if noExif then Except.ok none
         else
           match caption_of_metadata meta with
           | .error e => .error e
           | .ok t => Except.ok (some t) : Except PyErr (Option String)) with
  | .error _ => none
  | .ok c =>
    some { path := outPath, quality := 95, exif := exifBytes,
           sigRect := (sigX, sigY, wh.1, wh.2), caption := c }

/-- create_watermarked_image of the footer script (lines 40-121): device
make lookup and lowering, template selection (an unsupported make returns
with no output), then the caption computation; exceptions anywhere are
swallowed by the enclosing try.  On success the stacked image is saved at
the given path with quality 95 and the original EXIF bytes. -/
def create_watermarked_image_B (outPath : List Char)
    (exifBytes : Option (List Nat)) (meta : RawMeta) : Option SavedB :=
  match dictGet meta "Device Make" with
  | .error _ => none
  | .ok device =>
    match pyLower device with
    | .error _ => none
    | .ok dlow =>
      match select_template dlow with
      | none => none
      | some tmpl =>
        match caption_of_metadata meta with
        | .error _ => none
        | .ok text =>
          some { path := outPath, quality := 95, exif := exifBytes,
                 template := tmpl, caption := text }

/-! ### Batch runners -/

/-- Lower-case a file name, as file.lower() does. -/
def lowerName (cs : List Char) : List Char := cs.map Char.toLower

/-- The filename filter of the embed script (line 114): case-insensitive
.jpg extension test and a case-sensitive exclusion of the -sig.jpg output
suffix. -/
def filter_embed (cs : List Char) : Bool :=
  List.isSuffixOf ".jpg".data (lowerName cs) && !(List.isSuffixOf "-sig.jpg".data cs)

/-- The filename filter of the footer script (line 126): only the
case-insensitive .jpg extension test. -/
def filter_plain (cs : List Char) : Bool :=
  List.isSuffixOf ".jpg".data (lowerName cs)

/-- The output path: the input path with its final 4 characters replaced by
-sig.jpg (input_path up to -4 plus the suffix). -/
def output_name (cs : List Char) : List Char :=
  cs.take (cs.length - 4) ++ "-sig.jpg".data

/-- main of the embed script: walk the files, filter, extract metadata (an
exception here escapes and aborts the whole batch), then run the guarded
per-file composite, collecting the saved outputs. -/
def mainA (noExif : Bool) (r : ℚ) (center : Bool) (sw sh : Nat) :
    List InputImage → Except PyErr (List SavedA)
  | [] => .ok []
  | f :: rest =>
    if filter_embed f.name then
      match get_image_metadata f.exifTags with
      | .error e => .error e
      | .ok meta =>
        match mainA noExif r center sw sh rest with
        | .error e => .error e
        | .ok outs =>
          match create_watermarked_image_A (output_name f.name) f.width
              f.height sw sh noExif r center f.exifBytes meta with
          | some s => .ok (s :: outs)
          | none => .ok outs
    else mainA noExif r center sw sh rest

/-- main of the footer script: the same walk with the plain filter and the
footer composite. -/
def mainB : List InputImage → Except PyErr (List SavedB)
  | [] => .ok []
  | f :: rest =>
    if filter_plain f.name then
      match get_image_metadata f.exifTags with
      | .error e => .error e
      | .ok meta =>
        match mainB rest with
        | .error e => .error e
        | .ok outs =>
          match create_watermarked_image_B (output_name f.name) f.exifBytes meta with
          | some s => .ok (s :: outs)
          | none => .ok outs
    else mainB rest

/-! ### Helper lemmas -/

theorem qfloor_eq (q : ℚ) : qfloor q = ⌊q⌋ := Rat.floor_def.symm

theorem pyInt_nonneg (q : ℚ) (h : 0 ≤ q) : pyInt q = ⌊q⌋ := by
  rw [pyInt, if_pos h, qfloor_eq]

theorem trunc_round_close (x : ℚ) : |⌊x⌋ - round x| ≤ 1 := by
  rw [round_eq, abs_le]
  have h1 : ⌊x⌋ ≤ ⌊x + 1/2⌋ := Int.floor_le_floor (by linarith)
  have h2 : ⌊x + 1/2⌋ ≤ ⌊x⌋ + 1 := by
    calc ⌊x + 1/2⌋ ≤ ⌊x + 1⌋ := Int.floor_le_floor (by linarith)
    _ = ⌊x⌋ + 1 := by exact_mod_cast Int.floor_add_one x
  omega

theorem caption_eval (meta : RawMeta) (et dm lm fl iso fv : PyVal)
    (es : String) (k : Int)
    (h1 : dictGet meta "ExposureTime" = .ok et)
    (h2 : format_exposure et = .ok es)
    (h3 : dictGet meta "Device Model" = .ok dm)
    (h4 : dictGet meta "Lens Model" = .ok lm)
    (h5 : dictGet meta "Focal Length" = .ok fl)
    (h6 : pyToInt fl = .ok k)
    (h7 : dictGet meta "ISO" = .ok iso)
    (h8 : dictGet meta "F-Value" = .ok fv) :
    caption_of_metadata meta =
      .ok (pyFormat dm ++ " + " ++ pyFormat lm ++ "  |  " ++ toString k ++
           "mm, iso" ++ pyFormat iso ++ ", f/" ++ pyFormat fv ++ ", " ++ es ++ "s") := by
  simp only [caption_of_metadata, h1, h2, h3, h4, h5, h6, h7, h8]

/-! ### Claim C1 -/

/-- Claim C1, counterexample: the claim states that a non-zero denominator
with numerator not 1 formats as the one-digit decimal; but a zero NUMERATOR
with non-zero denominator formats as Unknown (the zero-valued rational is
falsy and is replaced by the 0/0 default), and the claim's own example
input (1, 3) takes the numerator-one branch and formats as 1/3, not 0.3. -/
theorem c1_counterexample :
    format_exposure (.prat 0 250) = .ok "Unknown"
    ∧ format_exposure (.prat 1 3) = .ok "1/3"
    ∧ "Unknown" ≠ "0.0"
    ∧ "1/3" ≠ "0.3" :=
  ⟨rfl, rfl, by decide, by decide⟩

/-- Claim C1 as amended: the formatted exposure string is Unknown when the
denominator is 0 or the numerator is 0; the fraction string when the
denominator is non-zero and the numerator is 1; and otherwise the binary64
decimal of the quotient with one fractional digit. -/
theorem c1_amended_thm (m n : Int) :
    (n = 0 → format_exposure (.prat m n) = .ok "Unknown")
    ∧ (m = 0 → format_exposure (.prat m n) = .ok "Unknown")
    ∧ (m = 1 → n ≠ 0 → format_exposure (.prat m n) = .ok ("1/" ++ toString n))
    ∧ (m ≠ 0 → m ≠ 1 → n ≠ 0 → format_exposure (.prat m n) = .ok (fmt1f m n)) := by
  refine ⟨?_, ?_, ?_, ?_⟩
  · intro hn
    subst hn
    simp [format_exposure, pyTruthy, pyNumerDenom]
  · intro hm
    subst hm
    by_cases hn : n = 0
    · subst hn
      simp [format_exposure, pyTruthy, pyNumerDenom]
    · simp [format_exposure, pyTruthy, pyNumerDenom, hn]
  · intro hm hn
    subst hm
    have hd : decide ((1 : Int) ≠ 0) = true := by decide
    simp only [format_exposure, pyTruthy, pyNumerDenom, if_neg hn, hd]
    rw [if_pos trivial]
    rfl
  · intro hm hm1 hn
    have hd : decide (m ≠ 0) = true := decide_eq_true hm
    simp only [format_exposure, pyTruthy, pyNumerDenom, if_neg hn, hd]
    rw [if_neg hm1]

/-- Claim C1 witness: the amended theorem applied at the input (2, 3),
whose binary64 quotient formats as 0.7. -/
theorem c1_witness :
    ((2 : Int) ≠ 0 ∧ (2 : Int) ≠ 1 ∧ (3 : Int) ≠ 0)
    ∧ format_exposure (.prat 2 3) = .ok "0.7" := by
  refine ⟨⟨by decide, by decide, by decide⟩, ?_⟩
  have h := (c1_amended_thm 2 3).2.2.2 (by decide) (by decide) (by decide)
  rw [h]
  rfl

/-! ### Claim C2 -/

/-- Claim C2: for caption fields with a numeric focal length (one whose int
conversion succeeds) and a formattable exposure, the caption is exactly the
template DeviceModel + LensModel, two-space bar, truncated focal length mm,
iso, f-number, exposure and the trailing s. -/
theorem c2_thm (dm lm mk2 fvs : String) (iso : Int) (fl et : PyVal)
    (k : Int) (es : String)
    (hf : pyToInt fl = .ok k) (he : format_exposure et = .ok es) :
    caption_of_metadata (mkFields dm lm mk2 fl (.pint iso) (.pstr fvs) et)
      = .ok (dm ++ " + " ++ lm ++ "  |  " ++ toString k ++ "mm, iso" ++
             toString iso ++ ", f/" ++ fvs ++ ", " ++ es ++ "s") :=
  caption_eval (mkFields dm lm mk2 fl (.pint iso) (.pstr fvs) et)
    et (.pstr dm) (.pstr lm) fl (.pint iso) (.pstr fvs) es k
    rfl he rfl rfl rfl hf rfl rfl

/-- Claim C2 witness: the end-to-end scenario of the claim, producing
exactly the stated caption string. -/
theorem c2_witness :
    caption_of_metadata (mkFields "X100V" "23mm f2" "FUJIFILM" (.prat 23 1)
        (.pint 400) (.pstr "2.8") (.prat 1 250))
      = .ok "X100V + 23mm f2  |  23mm, iso400, f/2.8, 1/250s" := by
  have h := c2_thm "X100V" "23mm f2" "FUJIFILM" "2.8" 400 (.prat 23 1)
    (.prat 1 250) 23 "1/250" rfl rfl
  rw [h]
  rfl

/-! ### Claim C3 -/

/-- Claim C3, failing run: with the EXIF block present but no FNumber tag,
get_image_metadata converts the (0, 0) default tuple with str(0 / 0) and
raises ZeroDivisionError; the call sits outside any try in main, so a batch
holding such a file aborts with that error instead of completing. -/
theorem c3_thm :
    get_image_metadata (some [("Model", PyVal.pstr "X100V")])
      = .error .zeroDivisionError
    ∧ mainA false (3/20) false 10 5
        [⟨"a.jpg".data, 100, 80, some [("Model", PyVal.pstr "X100V")], none⟩]
      = .error .zeroDivisionError :=
  ⟨rfl, rfl⟩

/-! ### Claim C4 -/

/-- Claim C4: template selection is a case-insensitive substring match on
the device make, with the hasselblad test first; the three example makes
select the Hasselblad template, the Sony template, and a skip with no
output, respectively. -/
theorem c4_thm :
    (∀ d : String, containsSub "hasselblad".data (d.data.map Char.toLower) = true →
       select_template (d.data.map Char.toLower) = some "watermark-hasselblad.png")
    ∧ (∀ d : String, containsSub "hasselblad".data (d.data.map Char.toLower) = false →
       containsSub "sony".data (d.data.map Char.toLower) = true →
       select_template (d.data.map Char.toLower) = some "watermark-sony.png")
    ∧ select_template ("HASSELBLAD X2D".data.map Char.toLower)
        = some "watermark-hasselblad.png"
    ∧ select_template ("Sony Alpha 7".data.map Char.toLower)
        = some "watermark-sony.png"
    ∧ select_template ("Canon EOS".data.map Char.toLower) = none
    ∧ create_watermarked_image_B "canon-sig.jpg".data none
        (mkFields "EOS R5" "RF 50" "Canon EOS" (.pint 50) (.pint 100)
          (.pstr "2.8") (.prat 1 250)) = none := by
  refine ⟨?_, ?_, rfl, rfl, rfl, rfl⟩
  · intro d h
    simp [select_template, h]
  · intro d h1 h2
    simp [select_template, h1, h2]

/-- Claim C4 witness: the selection theorem applied to the upper-case
Hasselblad make of the claim. -/
theorem c4_witness :
    containsSub "hasselblad".data ("HASSELBLAD X2D".data.map Char.toLower) = true
    ∧ select_template ("HASSELBLAD X2D".data.map Char.toLower)
        = some "watermark-hasselblad.png" :=
  ⟨rfl, c4_thm.1 "HASSELBLAD X2D" rfl⟩

/-! ### Claim C5 -/

/-- Claim C5, counterexample: a 100 by 33 signature asset scaled for a
1000 by 500 source at ratio 1/20 gets width 50 and truncated height
int(33 * 50 / 100) = 16, and 50 / 16 differs from the asset aspect ratio
100 / 33 - the aspect ratio is not preserved exactly as the claim states. -/
theorem c5_counterexample :
    sig_scaled 1000 500 100 33 (1/20) = (50, 16)
    ∧ ¬((50 : ℚ) / 16 = (100 : ℚ) / 33) := by
  constructor
  · have hm : ((max 1000 500 : ℕ) : ℚ) * (1 / 20) = 50 := by norm_num
    have h1 : pyInt (((max 1000 500 : ℕ) : ℚ) * (1 / 20)) = 50 := by
      rw [hm, pyInt, if_pos (by norm_num), qfloor_eq, Int.floor_eq_iff]
      norm_num
    simp only [sig_scaled, h1, Nat.cast_ofNat, Int.cast_ofNat]
    have h2 : pyInt ((33 : ℚ) * (50 : ℚ) / (100 : ℚ)) = 16 := by
      rw [pyInt, if_pos (by norm_num), qfloor_eq, Int.floor_eq_iff]
      norm_num
    simp only [h2]
  · norm_num

/-- Claim C5 as amended: the scaled width is within one pixel of
round(r times max(W, H)); the scaled height is the floor of
sigH times width over sigW, so the aspect ratio is preserved only up to
this integer truncation, exactly whenever sigW divides sigH times the
scaled width. -/
theorem c5_amended_thm (W H sw sh : Nat) (r : ℚ) (hr : 0 ≤ r) :
    |(sig_scaled W H sw sh r).1 - round (r * ((max W H : ℕ) : ℚ))| ≤ 1
    ∧ (sig_scaled W H sw sh r).2
        = ⌊(sh : ℚ) * (((sig_scaled W H sw sh r).1 : Int) : ℚ) / (sw : ℚ)⌋
    ∧ ((sw : Int) ∣ (sh : Int) * (sig_scaled W H sw sh r).1 →
        (sig_scaled W H sw sh r).2 * (sw : Int)
          = (sh : Int) * (sig_scaled W H sw sh r).1) := by
  have hx0 : 0 ≤ ((max W H : ℕ) : ℚ) * r :=
    mul_nonneg (Nat.cast_nonneg _) hr
  have hw : (sig_scaled W H sw sh r).1 = ⌊((max W H : ℕ) : ℚ) * r⌋ := by
    show pyInt (((max W H : ℕ) : ℚ) * r) = _
    exact pyInt_nonneg _ hx0
  have hw0 : (0 : Int) ≤ (sig_scaled W H sw sh r).1 := by
    rw [hw]
    exact Int.floor_nonneg.mpr hx0
  have hy0 : 0 ≤ (sh : ℚ) * (((sig_scaled W H sw sh r).1 : Int) : ℚ) / (sw : ℚ) := by
    apply div_nonneg _ (Nat.cast_nonneg _)
    exact mul_nonneg (Nat.cast_nonneg _) (by exact_mod_cast hw0)
  have hh : (sig_scaled W H sw sh r).2
      = ⌊(sh : ℚ) * (((sig_scaled W H sw sh r).1 : Int) : ℚ) / (sw : ℚ)⌋ := by
    show pyInt ((sh : ℚ) * (((sig_scaled W H sw sh r).1 : Int) : ℚ) / (sw : ℚ)) = _
    exact pyInt_nonneg _ hy0
  refine ⟨?_, hh, ?_⟩
  · rw [hw, mul_comm r ((max W H : ℕ) : ℚ)]
    exact trunc_round_close _
  · intro hdvd
    obtain ⟨c, hc⟩ := hdvd
    by_cases hsw : (sw : ℕ) = 0
    · have h0 : (sh : Int) * (sig_scaled W H sw sh r).1 = 0 := by
        rw [hc, hsw]
        simp
      rw [hh, h0]
      have : (sh : ℚ) * (((sig_scaled W H sw sh r).1 : Int) : ℚ) / (sw : ℚ) = 0 := by
        rw [hsw]
        simp
      rw [this]
      simp
    · have hswQ : ((sw : ℕ) : ℚ) ≠ 0 := Nat.cast_ne_zero.mpr hsw
      have hval : (sh : ℚ) * (((sig_scaled W H sw sh r).1 : Int) : ℚ) / (sw : ℚ)
          = (c : ℚ) := by
        have hnum : (sh : ℚ) * (((sig_scaled W H sw sh r).1 : Int) : ℚ)
            = ((sw : ℕ) : ℚ) * (c : ℚ) := by
          have := congrArg (fun z : Int => (z : ℚ)) hc
          push_cast at this ⊢
          linarith
        rw [hnum, mul_comm, mul_div_assoc, div_self hswQ, mul_one]
      rw [hh, hval, Int.floor_intCast, hc]
      ring

/-- Claim C5 witness: the amended theorem applied to the concrete geometry
of the counterexample. -/
theorem c5_witness :
    0 ≤ (1/20 : ℚ)
    ∧ (|(sig_scaled 1000 500 100 33 (1/20)).1
          - round ((1/20) * ((max 1000 500 : ℕ) : ℚ))| ≤ 1
       ∧ (sig_scaled 1000 500 100 33 (1/20)).2
           = ⌊(33 : ℚ) * (((sig_scaled 1000 500 100 33 (1/20)).1 : Int) : ℚ) / (100 : ℚ)⌋
       ∧ ((100 : Int) ∣ (33 : Int) * (sig_scaled 1000 500 100 33 (1/20)).1 →
           (sig_scaled 1000 500 100 33 (1/20)).2 * (100 : Int)
             = (33 : Int) * (sig_scaled 1000 500 100 33 (1/20)).1)) :=
  ⟨by norm_num, c5_amended_thm 1000 500 100 33 (1/20) (by norm_num)⟩

/-! ### Claim C6 -/

/-- Claim C6: the additive blend at opacity 0.6 equals the clamp of
bg + fg * 0.6 to the range 0 to 255, and takes the claimed values at the
three boundary pairs. -/
theorem c6_thm (bg fg : ℚ) :
    blend_addition bg fg (3/5) = max 0 (min 255 (bg + fg * (3/5)))
    ∧ blend_addition 0 0 (3/5) = 0
    ∧ blend_addition 255 255 (3/5) = 255
    ∧ blend_addition 0 255 (3/5) = 153 := by
  refine ⟨?_, ?_, ?_, ?_⟩
  · rw [blend_addition, max_min_distrib_left]
    norm_num
  · rw [blend_addition]
    norm_num
  · rw [blend_addition]
    norm_num
  · rw [blend_addition]
    norm_num

/-! ### Claim C7 -/

/-- Claim C7, counterexample: the footer variant's filter accepts a file
already carrying the -sig.jpg output suffix, and a run of its main over
such a file re-processes it, producing a photo-sig-sig.jpg output - so the
suffix exclusion does not hold in both variants as claimed. -/
theorem c7_counterexample :
    filter_plain "photo-sig.jpg".data = true
    ∧ (mainB [⟨"photo-sig.jpg".data, 640, 480,
          some [("Make", PyVal.pstr "Sony"), ("Model", PyVal.pstr "ILCE-7M4"),
                ("LensModel", PyVal.pstr "FE 35mm"), ("FocalLength", PyVal.pint 35),
                ("ISOSpeedRatings", PyVal.pint 100), ("FNumber", PyVal.pint 2),
                ("ExposureTime", PyVal.prat 1 250)],
          some [1, 2, 3]⟩]).map (List.map SavedB.path)
        = .ok ["photo-sig-sig.jpg".data] :=
  ⟨rfl, rfl⟩

/-- Claim C7 as amended: only the flag variant excludes the -sig.jpg suffix,
and it does so case-sensitively; the footer variant's filter accepts every
name that case-insensitively ends in .jpg, including existing outputs. -/
theorem c7_amended_thm :
    (∀ cs : List Char, List.isSuffixOf "-sig.jpg".data cs = true →
       filter_embed cs = false)
    ∧ filter_plain "photo-sig.jpg".data = true
    ∧ filter_embed "photo-sig.jpg".data = false := by
  refine ⟨?_, rfl, rfl⟩
  intro cs h
  simp [filter_embed, h]

/-- Claim C7 witness: the amended theorem's exclusion applied to a concrete
output name. -/
theorem c7_witness :
    List.isSuffixOf "-sig.jpg".data "x-sig.jpg".data = true
    ∧ filter_embed "x-sig.jpg".data = false :=
  ⟨rfl, c7_amended_thm.1 "x-sig.jpg".data rfl⟩

/-! ### Claim C8 -/

theorem createA_some (op : List Char) (W H sw sh : Nat) (ne : Bool) (r : ℚ)
    (c : Bool) (eb : Option (List Nat)) (meta : RawMeta) (s : SavedA)
    (h : create_watermarked_image_A op W H sw sh ne r c eb meta = some s) :
    s.quality = 95 ∧ s.path = op ∧ s.exif = eb := by
  unfold create_watermarked_image_A at h
  cases ne with
  | true =>
    simp only [if_pos] at h
    obtain rfl := Option.some.inj h
    exact ⟨rfl, rfl, rfl⟩
  | false =>
    simp only [Bool.false_eq_true, if_neg] at h
    cases hc : caption_of_metadata meta with
    | error e =>
      rw [hc] at h
      exact absurd h (by simp)
    | ok t =>
      rw [hc] at h
      obtain rfl := Option.some.inj h
      exact ⟨rfl, rfl, rfl⟩

theorem createB_some (op : List Char) (eb : Option (List Nat))
    (meta : RawMeta) (s : SavedB)
    (h : create_watermarked_image_B op eb meta = some s) :
    s.quality = 95 ∧ s.path = op ∧ s.exif = eb := by
  unfold create_watermarked_image_B at h
  split at h
  · exact absurd h (by simp)
  · split at h
    · exact absurd h (by simp)
    · split at h
      · exact absurd h (by simp)
      · split at h
        · exact absurd h (by simp)
        · obtain rfl := Option.some.inj h
          exact ⟨rfl, rfl, rfl⟩

theorem mainA_outs (ne : Bool) (r : ℚ) (c : Bool) (sw sh : Nat)
    (files : List InputImage) :
    ∀ outs : List SavedA, mainA ne r c sw sh files = .ok outs →
      List.Forall (fun s => s.quality = 95 ∧
        ∃ f, f ∈ files ∧ s.path = output_name f.name ∧ s.exif = f.exifBytes) outs := by
  induction files with
  | nil =>
    intro outs h
    simp only [mainA, Except.ok.injEq] at h
    subst h
    trivial
  | cons f rest ih =>
    intro outs h
    have lift : ∀ s : SavedA,
        (s.quality = 95 ∧ ∃ g, g ∈ rest ∧ s.path = output_name g.name ∧ s.exif = g.exifBytes) →
        (s.quality = 95 ∧ ∃ g, g ∈ f :: rest ∧ s.path = output_name g.name ∧ s.exif = g.exifBytes) := by
      rintro s ⟨hq, g, hg, hp, he⟩
      exact ⟨hq, g, List.mem_cons_of_mem _ hg, hp, he⟩
    rw [mainA] at h
    by_cases hf : filter_embed f.name = true
    · rw [if_pos hf] at h
      split at h
      · exact absurd h (by simp)
      · split at h
        · exact absurd h (by simp)
        · rename_i meta hm outs2 hrest
          split at h
          · rename_i s0 hc
            obtain rfl := Except.ok.inj h
            rw [List.forall_cons]
            refine ⟨?_, (ih outs2 hrest).imp lift⟩
            obtain ⟨hq, hp, he⟩ := createA_some _ _ _ _ _ _ _ _ _ _ _ hc
            exact ⟨hq, f, List.mem_cons_self f rest, hp, he⟩
          · obtain rfl := Except.ok.inj h
            exact (ih outs2 hrest).imp lift
    · rw [if_neg hf] at h
      exact (ih outs h).imp lift

theorem mainB_outs (files : List InputImage) :
    ∀ outs : List SavedB, mainB files = .ok outs →
      List.Forall (fun s => s.quality = 95 ∧
        ∃ f, f ∈ files ∧ s.path = output_name f.name ∧ s.exif = f.exifBytes) outs := by
  induction files with
  | nil =>
    intro outs h
    simp only [mainB, Except.ok.injEq] at h
    subst h
    trivial
  | cons f rest ih =>
    intro outs h
    have lift : ∀ s : SavedB,
        (s.quality = 95 ∧ ∃ g, g ∈ rest ∧ s.path = output_name g.name ∧ s.exif = g.exifBytes) →
        (s.quality = 95 ∧ ∃ g, g ∈ f :: rest ∧ s.path = output_name g.name ∧ s.exif = g.exifBytes) := by
      rintro s ⟨hq, g, hg, hp, he⟩
      exact ⟨hq, g, List.mem_cons_of_mem _ hg, hp, he⟩
    rw [mainB] at h
    by_cases hf : filter_plain f.name = true
    · rw [if_pos hf] at h
      split at h
      · exact absurd h (by simp)
      · split at h
        · exact absurd h (by simp)
        · rename_i meta hm outs2 hrest
          split at h
          · rename_i s0 hc
            obtain rfl := Except.ok.inj h
            rw [List.forall_cons]
            refine ⟨?_, (ih outs2 hrest).imp lift⟩
            obtain ⟨hq, hp, he⟩ := createB_some _ _ _ _ hc
            exact ⟨hq, f, List.mem_cons_self f rest, hp, he⟩
          · obtain rfl := Except.ok.inj h
            exact (ih outs2 hrest).imp lift
    · rw [if_neg hf] at h
      exact (ih outs h).imp lift

/-- Claim C8: the output name is the input name with its final four
characters replaced by -sig.jpg; every successful save of either composite
carries quality 95, the save path it was invoked with, and the source's
EXIF bytes unchanged; and every output a batch run produces has quality 95
and the output name and EXIF bytes of one of the walked files. -/
theorem c8_thm :
    (∀ stem : List Char,
       output_name (stem ++ ".jpg".data) = stem ++ "-sig.jpg".data)
    ∧ (∀ (op : List Char) (W H sw sh : Nat) (ne : Bool) (r : ℚ) (c : Bool)
         (eb : Option (List Nat)) (meta : RawMeta),
       (create_watermarked_image_A op W H sw sh ne r c eb meta).elim True
         (fun s => s.quality = 95 ∧ s.path = op ∧ s.exif = eb))
    ∧ (∀ (op : List Char) (eb : Option (List Nat)) (meta : RawMeta),
       (create_watermarked_image_B op eb meta).elim True
         (fun s => s.quality = 95 ∧ s.path = op ∧ s.exif = eb))
    ∧ (∀ (ne : Bool) (r : ℚ) (c : Bool) (sw sh : Nat) (files : List InputImage),
       (mainA ne r c sw sh files).toOption.elim True
         (List.Forall fun s => s.quality = 95 ∧
           ∃ f, f ∈ files ∧ s.path = output_name f.name ∧ s.exif = f.exifBytes))
    ∧ (∀ files : List InputImage,
       (mainB files).toOption.elim True
         (List.Forall fun s => s.quality = 95 ∧
           ∃ f, f ∈ files ∧ s.path = output_name f.name ∧ s.exif = f.exifBytes)) := by
  refine ⟨?_, ?_, ?_, ?_, ?_⟩
  · intro stem
    unfold output_name
    have h4 : (".jpg".data).length = 4 := rfl
    have hlen : (stem ++ ".jpg".data).length - 4 = stem.length := by
      rw [List.length_append, h4]
      omega
    rw [hlen, List.take_left]
  · intro op W H sw sh ne r c eb meta
    cases hc : create_watermarked_image_A op W H sw sh ne r c eb meta with
    | none => trivial
    | some s => exact createA_some _ _ _ _ _ _ _ _ _ _ _ hc
  · intro op eb meta
    cases hc : create_watermarked_image_B op eb meta with
    | none => trivial
    | some s => exact createB_some _ _ _ _ hc
  · intro ne r c sw sh files
    cases hm : mainA ne r c sw sh files with
    | error e => trivial
    | ok outs => exact mainA_outs ne r c sw sh files outs hm
  · intro files
    cases hm : mainB files with
    | error e => trivial
    | ok outs => exact mainB_outs files outs hm

/-! ### Claim C9 -/

/-- Claim C9: with no EXIF block the extractor returns the empty dictionary,
and on that empty dictionary the overlay composite with captions enabled and
the footer composite both fail on the first missing key inside their guarded
bodies and save nothing - the image is not watermarked with defaults. -/
theorem c9_thm (op : List Char) (W H sw sh : Nat) (r : ℚ) (c : Bool)
    (eb : Option (List Nat)) :
    get_image_metadata none = .ok []
    ∧ create_watermarked_image_A op W H sw sh false r c eb [] = none
    ∧ create_watermarked_image_B op eb [] = none :=
  ⟨rfl, rfl, rfl⟩

/-! ### Claim C10 -/

/-- Claim C10: a name carrying the output suffix in upper case passes the
flag variant's filter (the extension test lowers the name but the suffix
exclusion does not), and a batch run over such a file processes it and
writes a further output next to it. -/
theorem c10_thm :
    filter_embed "X-SIG.JPG".data = true
    ∧ List.isSuffixOf "-sig.jpg".data (lowerName "X-SIG.JPG".data) = true
    ∧ (mainA true (3/20) false 10 5
         [⟨"X-SIG.JPG".data, 200, 100, none, none⟩]).map (List.map SavedA.path)
        = .ok ["X-SIG-sig.jpg".data] :=
  ⟨rfl, rfl, rfl⟩

